import Mathlib

/-!
# Verification of the `RacingClient` resource-resolution core

Shallow embedding of the authentication / resource-resolution / chunk-assembly
core of `src/RacingClient.py`, together with theorems settling the frozen
claims about it.

Modelling conventions:
* JSON documents are the inductive `Json` below; HTTP response bodies are
  modelled as already-parsed JSON values (the external interface of the remote
  service is JSON throughout).
* The network is an oracle `Transport : Nat → GetOutcome`: the n-th network
  call of the session (login POSTs and GETs alike) receives the n-th outcome,
  which is either an HTTP response (status code + parsed body) or a raised
  exception.  The client state `St` carries the `authenticated` flag and the
  number of network calls consumed so far.
* Python exceptions are the inductive `PyExc`.  Each `except` clause of the
  source is embedded as a predicate on `PyExc` reflecting Python's class
  hierarchy (documented at each predicate).
* Every operation returns a `Res α`: an `Except PyExc α` result, the state
  after the call (Python state mutations survive a raised exception), and the
  list of network events the call emitted, in order.
-/

/-- Parsed JSON values, as produced by `response.json()` in the source. -/
inductive Json where
  | null
  | bool (b : Bool)
  | num (n : Int)
  | str (s : String)
  | arr (elems : List Json)
  | obj (fields : List (String × Json))
deriving Repr

/-- Python truthiness (`if x:`) on JSON values: `None`, `False`, `0`, `""`,
`[]` and `{}` are falsy, everything else truthy. -/
def pyTruthy : Json → Bool
  | Json.null => false
  | Json.bool b => b
  | Json.num n => n != 0
  | Json.str s => s ≠ ""
  | Json.arr elems => !elems.isEmpty
  | Json.obj fields => !fields.isEmpty

/-- Python exceptions relevant to the embedded code.  `runtimeError` carries
the positional arguments of `RuntimeError(...)` (strings as `Json.str`). -/
inductive PyExc where
  | runtimeError (args : List Json)
  /-- The Python `RecursionError` (raised when the recursion limit is exceeded);
  in Python it is a subclass of `RuntimeError`. -/
  | recursionError
  /-- The `requests.exceptions.Timeout` exception. -/
  | requestsTimeout
  /-- The `requests.exceptions.ConnectionError` exception; in the requests library it
  derives from `RequestException`, hence from `IOError`/`OSError`. -/
  | requestsConnectionError
  /-- The Python builtin `ConnectionError` (a subclass of `OSError`). -/
  | builtinConnectionError
  /-- The `requests.exceptions.MissingSchema` exception, raised by `session.get` when the
  url argument is not a string-shaped URL. -/
  | invalidURL
  | keyError (k : String)
  | typeError (msg : String)
  | attributeError (msg : String)
deriving Repr

/-- Which exceptions the clause `except ConnectionError` in `_get_resource`
matches.  The bare name `ConnectionError` in the source resolves to the Python
*builtin* `ConnectionError`.  `requests.exceptions.ConnectionError` is NOT a
subclass of the builtin (both derive from `OSError`, as siblings), so the
connection errors raised by `self.session.get` are not matched. -/
def caughtByBuiltinConnectionError : PyExc → Bool
  | PyExc.builtinConnectionError => true
  | _ => false

/-- Which exceptions an `except RuntimeError` clause matches: `RuntimeError`
itself and its subclass `RecursionError`. -/
def caughtByRuntimeError : PyExc → Bool
  | PyExc.runtimeError _ => true
  | PyExc.recursionError => true
  | _ => false

/-- Which exceptions `except requests.Timeout` (in `_login`) matches. -/
def caughtByRequestsTimeout : PyExc → Bool
  | PyExc.requestsTimeout => true
  | _ => false

/-- Which exceptions `except requests.ConnectionError` (in `_login`)
matches. -/
def caughtByRequestsConnectionError : PyExc → Bool
  | PyExc.requestsConnectionError => true
  | _ => false

/-- Python subscripting `value[key]` with a string key: a key lookup on a
dict, `TypeError` on a list or other non-dict value, and the dedicated
`'NoneType' object is not subscriptable` `TypeError` on `None`. -/
def pyGetItem : Json → String → Except PyExc Json
  | Json.obj fields, k =>
    match fields.lookup k with
    | some v => Except.ok v
    | none => Except.error (PyExc.keyError k)
  | Json.arr _, _ => Except.error (PyExc.typeError "list indices must be integers or slices, not str")
  | Json.null, _ => Except.error (PyExc.typeError "NoneType object is not subscriptable")
  | _, _ => Except.error (PyExc.typeError "object is not subscriptable")

/-- Python iteration `for item in value`: a list yields its elements, a dict
yields its keys (as strings), anything else relevant here is not iterable.
(String iteration is not needed by the embedded code paths.) -/
def pyIterate : Json → Except PyExc (List Json)
  | Json.arr elems => Except.ok elems
  | Json.obj fields => Except.ok (fields.map (fun f => Json.str f.1))
  | _ => Except.error (PyExc.typeError "object is not iterable")

/-- Query-string parameters (`payload` in the source): an optional mapping of
parameter names to JSON values. -/
abbrev Params := List (String × Json)

/-- Observable network events, in the order the client issues them. -/
inductive Event where
  /-- The login POST to `https://members-ng.iracing.com/auth`. -/
  | loginExchange
  /-- A `session.get(url, params=payload)` call. -/
  | fetch (url : String) (payload : Option Params)
deriving Repr

def isLoginEvent : Event → Bool
  | Event.loginExchange => true
  | _ => false

/-- Number of network login exchanges in an event trace. -/
def loginCount (evs : List Event) : Nat :=
  evs.countP isLoginEvent

/-- Outcome of one network call: an HTTP response with parsed JSON body, or a
raised exception (timeouts and connection failures surface as exceptions in
requests). -/
inductive GetOutcome where
  | resp (status : Nat) (body : Json)
  | raise (e : PyExc)
deriving Repr

/-- The network oracle: outcome of the n-th network call of the session. -/
abbrev Transport := Nat → GetOutcome

/-- Client state relevant to the claims: the `self.authenticated` flag and
the number of network calls consumed from the transport so far. -/
structure St where
  authenticated : Bool
  netCalls : Nat
deriving Repr

/-- Result of one embedded operation: the returned value or raised exception,
the client state after the call, and the network events emitted (in order). -/
structure Res (α : Type) where
  result : Except PyExc α
  state : St
  events : List Event
deriving Repr

/-- The state of `RacingClient.__init__`: `self.authenticated = False`, no
network call issued yet. -/
def initialState : St := { authenticated := false, netCalls := 0 }

/-- The `self.base_url` value set in `__init__`. -/
def base_url : String := "https://members-ng.iRacing.com"

/-- Embeds `_build_url`: `self.base_url + endpoint`. -/
def build_url (endpoint : String) : String := base_url ++ endpoint

/-- Advance the session state past one consumed network call. -/
def bump (st : St) : St := { st with netCalls := st.netCalls + 1 }

/-- The `try/except/else` of `_login`, as a function of the outcome of the
login POST (`st1` is the state after the POST was issued): map
`requests.Timeout` to `RuntimeError("Login timed out")` and
`requests.ConnectionError` to `RuntimeError("Connection error")`; on a 200
response whose `authcode` field is truthy set `self.authenticated = True` and
return `"Logged in"`, otherwise raise
`RuntimeError("Error from iRacing: ", response_data)`.  Note the source
evaluates `r.status_code == 200 and response_data['authcode']` with Python
short-circuiting: the `authcode` lookup happens only when the status is 200,
and a missing key then raises `KeyError`. -/
def loginResponse (st1 : St) : GetOutcome → Res String
  | GetOutcome.raise e =>
    if caughtByRequestsTimeout e then
      { result := Except.error (PyExc.runtimeError [Json.str "Login timed out"]),
        state := st1, events := [Event.loginExchange] }
    else if caughtByRequestsConnectionError e then
      { result := Except.error (PyExc.runtimeError [Json.str "Connection error"]),
        state := st1, events := [Event.loginExchange] }
    else
      { result := Except.error e, state := st1, events := [Event.loginExchange] }
  | GetOutcome.resp status body =>
    if status = 200 then
      match pyGetItem body "authcode" with
      | Except.error e =>
        { result := Except.error e, state := st1, events := [Event.loginExchange] }
      | Except.ok v =>
        if pyTruthy v then
          { result := Except.ok "Logged in",
            state := { st1 with authenticated := true }, events := [Event.loginExchange] }
        else
          { result := Except.error (PyExc.runtimeError [Json.str "Error from iRacing: ", body]),
            state := st1, events := [Event.loginExchange] }
    else
      { result := Except.error (PyExc.runtimeError [Json.str "Error from iRacing: ", body]),
        state := st1, events := [Event.loginExchange] }

/-- Embeds `_login` (as invoked from `_get_resource_or_link`, i.e. with
`cookie_file=None`, so the cookie-jar persistence branch is skipped):
`session.post` to the auth endpoint consumes one transport outcome and emits
the login-exchange event; the rest is `loginResponse`. -/
def login (tr : Transport) (st : St) : Res String :=
  loginResponse (bump st) (tr st.netCalls)

/-- The response handling of `_get_resource_or_link` once authenticated, as a
function of the outcome of `session.get(url, params=payload)` (`st1` is the
state after the GET was issued): on a 401 set `self.authenticated = False`;
on any non-200 status raise `RuntimeError(r.json())`; otherwise, if the body
is not a list and has a `"link"` key return `[data["link"], True]`, else
return `[data, False]`.  (On a non-list, non-dict body, `data.keys()` raises
`AttributeError`.) -/
def resourceResponse (st1 : St) (url : String) (payload : Option Params) :
    GetOutcome → Res (Json × Bool)
  | GetOutcome.raise e =>
    { result := Except.error e, state := st1, events := [Event.fetch url payload] }
  | GetOutcome.resp status body =>
    let st2 := if status = 401 then { st1 with authenticated := false } else st1
    if status ≠ 200 then
      { result := Except.error (PyExc.runtimeError [body]), state := st2,
        events := [Event.fetch url payload] }
    else
      match body with
      | Json.arr elems =>
        { result := Except.ok (Json.arr elems, false), state := st2,
          events := [Event.fetch url payload] }
      | Json.obj fields =>
        match fields.lookup "link" with
        | some linkVal =>
          { result := Except.ok (linkVal, true), state := st2,
            events := [Event.fetch url payload] }
        | none =>
          { result := Except.ok (Json.obj fields, false), state := st2,
            events := [Event.fetch url payload] }
      | _ =>
        { result := Except.error (PyExc.attributeError "object has no attribute keys"),
          state := st2, events := [Event.fetch url payload] }

/-- The non-recursive body of `_get_resource_or_link`, reached when
`self.authenticated` is true: issue the GET (consuming one transport
outcome) and handle the response. -/
def getResourceOrLinkBody (tr : Transport) (st : St) (url : String)
    (payload : Option Params) : Res (Json × Bool) :=
  resourceResponse (bump st) url payload (tr st.netCalls)

/-- Embeds `_get_resource_or_link`: when `self.authenticated` is false, `_login()`
then re-enter recursively; otherwise run the fetch body above.  The source
recursion is embedded with explicit fuel; exhausted fuel raises
`RecursionError` exactly as Python's recursion limit would. -/
def getResourceOrLink (tr : Transport) : Nat → St → String → Option Params → Res (Json × Bool)
  | 0, st, _, _ => { result := Except.error PyExc.recursionError, state := st, events := [] }
  | fuel + 1, st, url, payload =>
    if st.authenticated then
      getResourceOrLinkBody tr st url payload
    else
      let lr := login tr st
      match lr.result with
      | Except.error e => { result := Except.error e, state := lr.state, events := lr.events }
      | Except.ok _ =>
        let inner := getResourceOrLink tr fuel lr.state url payload
        { result := inner.result, state := inner.state, events := lr.events ++ inner.events }

/-- Handling of the second GET of `_get_resource` (the link dereference):
the raised exception propagates, a non-200 status raises
`RuntimeError(r.json())`, and otherwise the JSON body is returned. -/
def linkFetchResult : GetOutcome → Except PyExc Json
  | GetOutcome.raise e => Except.error e
  | GetOutcome.resp status body =>
    if status ≠ 200 then Except.error (PyExc.runtimeError [body]) else Except.ok body

/-- The body of the `try:` block of `_get_resource`: resolve via
`_get_resource_or_link`; when the result is not a link return it; when it is
a link, GET the link value (a non-string link makes `session.get` raise
before any request goes out), and return its JSON body on a 200 status,
raising `RuntimeError(r.json())` otherwise. -/
def getResourceTryBody (tr : Transport) (fuel : Nat) (st : St) (endpoint : String)
    (payload : Option Params) : Res Json :=
  let request_url := build_url endpoint
  let r1 := getResourceOrLink tr fuel st request_url payload
  match r1.result with
  | Except.error e => { result := Except.error e, state := r1.state, events := r1.events }
  | Except.ok (resource_obj, is_link) =>
    if is_link = false then
      { result := Except.ok resource_obj, state := r1.state, events := r1.events }
    else
      match resource_obj with
      | Json.str linkUrl =>
        { result := linkFetchResult (tr r1.state.netCalls), state := bump r1.state,
          events := r1.events ++ [Event.fetch linkUrl none] }
      | _ =>
        { result := Except.error PyExc.invalidURL, state := r1.state, events := r1.events }

/-- Embeds `_get_resource`: run the try-body; an exception matched by the source's
`except ConnectionError` clause (the Python builtin — see
`caughtByBuiltinConnectionError`) is swallowed, printed, and turned into a
`None` return; every other exception propagates. -/
def getResource (tr : Transport) (fuel : Nat) (st : St) (endpoint : String)
    (payload : Option Params) : Res (Option Json) :=
  let r := getResourceTryBody tr fuel st endpoint payload
  match r.result with
  | Except.ok v => { result := Except.ok (some v), state := r.state, events := r.events }
  | Except.error e =>
    if caughtByBuiltinConnectionError e then
      { result := Except.ok none, state := r.state, events := r.events }
    else
      { result := Except.error e, state := r.state, events := r.events }

/-- The fetch loop of `_get_chunks`:
`[self.session.get(url).json() for url in urls]` — one GET per url, strictly
left to right, collecting the parsed bodies (the status code is not
inspected); a raised exception aborts the comprehension and propagates. -/
def fetchChunkBodies (tr : Transport) : St → List String → Res (List Json)
  | st, [] => { result := Except.ok [], state := st, events := [] }
  | st, url :: rest =>
    match tr st.netCalls with
    | GetOutcome.raise e =>
      { result := Except.error e, state := bump st, events := [Event.fetch url none] }
    | GetOutcome.resp _ body =>
      let r := fetchChunkBodies tr (bump st) rest
      match r.result with
      | Except.error e =>
        { result := Except.error e, state := r.state, events := Event.fetch url none :: r.events }
      | Except.ok bodies =>
        { result := Except.ok (body :: bodies), state := r.state,
          events := Event.fetch url none :: r.events }

/-- The final flattening of `_get_chunks`:
`[item for sublist in list_of_chunks for item in sublist]` — one level of
Python iteration over each chunk body, concatenated in order. -/
def flattenChunks : List Json → Except PyExc (List Json)
  | [] => Except.ok []
  | body :: rest =>
    match pyIterate body with
    | Except.error e => Except.error e
    | Except.ok items =>
      match flattenChunks rest with
      | Except.error e => Except.error e
      | Except.ok tail => Except.ok (items ++ tail)

/-- The url comprehension of `_get_chunks`:
`[base_url + x for x in chunks["chunk_file_names"]]` — left to right; a
non-string file name makes the Python `+` raise `TypeError` at that
element. -/
def buildChunkUrls (downloadBase : String) : List Json → Except PyExc (List String)
  | [] => Except.ok []
  | Json.str s :: rest =>
    match buildChunkUrls downloadBase rest with
    | Except.ok us => Except.ok ((downloadBase ++ s) :: us)
    | Except.error e => Except.error e
  | _ :: _ => Except.error (PyExc.typeError "can only concatenate str to str")

/-- Embeds `_get_chunks(chunks)`: read `chunks["base_download_url"]` and
`chunks["chunk_file_names"]`, build `base_url + x` for each file name in
order, fetch each url's JSON body, and flatten the bodies one level.  A
non-string base url makes the Python `+` raise `TypeError`. -/
def getChunks (tr : Transport) (st : St) (chunks : Json) : Res (List Json) :=
  match pyGetItem chunks "base_download_url" with
  | Except.error e => { result := Except.error e, state := st, events := [] }
  | Except.ok baseVal =>
    match baseVal with
    | Json.str downloadBase =>
      match pyGetItem chunks "chunk_file_names" with
      | Except.error e => { result := Except.error e, state := st, events := [] }
      | Except.ok namesVal =>
        match pyIterate namesVal with
        | Except.error e => { result := Except.error e, state := st, events := [] }
        | Except.ok nameVals =>
          match buildChunkUrls downloadBase nameVals with
          | Except.error e => { result := Except.error e, state := st, events := [] }
          | Except.ok urls =>
            let fetched := fetchChunkBodies tr st urls
            match fetched.result with
            | Except.error e =>
              { result := Except.error e, state := fetched.state, events := fetched.events }
            | Except.ok bodies =>
              match flattenChunks bodies with
              | Except.error e =>
                { result := Except.error e, state := fetched.state, events := fetched.events }
              | Except.ok output =>
                { result := Except.ok output, state := fetched.state, events := fetched.events }
    | _ => { result := Except.error (PyExc.typeError "can only concatenate str to str"),
             state := st, events := [] }

/-- Embeds `get_cust_id(cust_id)` with `self.global_cust_id` as first argument: a
truthy `cust_id` is returned unchanged; otherwise a truthy
`self.global_cust_id` is returned; otherwise
`RuntimeError("Please supply a cust_id")` is raised. -/
def get_cust_id (global_cust_id : Json) (cust_id : Json) : Except PyExc Json :=
  if ¬ pyTruthy cust_id then
    if pyTruthy global_cust_id then Except.ok global_cust_id
    else Except.error (PyExc.runtimeError [Json.str "Please supply a cust_id"])
  else Except.ok cust_id

/-- Embeds `result_event_log(subsession_id, simsession_number)` (the `export=False`
path; `raw_to_json` is a pure file-export side effect outside the claims):
raise on a falsy `subsession_id`; inside a `try ... except RuntimeError`
resolve `/data/results/event_log` (a caught `RuntimeError` is logged and the
call returns `None`); then — OUTSIDE the handler — apply `_get_chunks` to
`raw_data["chunk_info"]` and return the chunks. -/
def result_event_log (tr : Transport) (fuel : Nat) (st : St)
    (subsession_id : Json) (simsession_number : Json) : Res (Option (List Json)) :=
  if ¬ pyTruthy subsession_id then
    { result := Except.error (PyExc.runtimeError [Json.str "Please supply a subsession_id"]),
      state := st, events := [] }
  else
    let payload : Params :=
      [("subsession_id", subsession_id), ("simsession_number", simsession_number)]
    let r := getResource tr fuel st "/data/results/event_log" (some payload)
    match r.result with
    | Except.error e =>
      if caughtByRuntimeError e then
        { result := Except.ok none, state := r.state, events := r.events }
      else
        { result := Except.error e, state := r.state, events := r.events }
    | Except.ok raw_data =>
      let rawJson : Json := match raw_data with
        | some j => j
        | none => Json.null
      match pyGetItem rawJson "chunk_info" with
      | Except.error e => { result := Except.error e, state := r.state, events := r.events }
      | Except.ok chunkInfo =>
        let c := getChunks tr r.state chunkInfo
        match c.result with
        | Except.error e =>
          { result := Except.error e, state := c.state, events := r.events ++ c.events }
        | Except.ok chunks =>
          { result := Except.ok (some chunks), state := c.state, events := r.events ++ c.events }

/-!
## Credential encoder

`_encode_password` computes
`base64.b64encode(hashlib.sha256((password + username.lower()).encode('utf-8')).digest()).decode('utf-8')`.
The two library primitives are embedded from their defining standards:
SHA-256 from FIPS 180-4 and base64 from RFC 4648 §4, both over byte lists
(naturals below 256).
-/

/-- Truncation to a 32-bit word. -/
def mask32 (x : Nat) : Nat := x % 2 ^ 32

/-- Addition modulo `2 ^ 32`. -/
def add32 (a b : Nat) : Nat := mask32 (a + b)

/-- Right rotation of a 32-bit word by `n` places. -/
def rotr32 (n x : Nat) : Nat := mask32 ((x >>> n) ||| (x <<< (32 - n)))

/-- Bitwise complement on 32-bit words. -/
def not32 (x : Nat) : Nat := x ^^^ (2 ^ 32 - 1)

/-- SHA-256 `Ch(x,y,z)`. -/
def shaCh (x y z : Nat) : Nat := (x &&& y) ^^^ (not32 x &&& z)

/-- SHA-256 `Maj(x,y,z)`. -/
def shaMaj (x y z : Nat) : Nat := (x &&& y) ^^^ (x &&& z) ^^^ (y &&& z)

/-- SHA-256 `Σ0`. -/
def shaBigSigma0 (x : Nat) : Nat := rotr32 2 x ^^^ rotr32 13 x ^^^ rotr32 22 x

/-- SHA-256 `Σ1`. -/
def shaBigSigma1 (x : Nat) : Nat := rotr32 6 x ^^^ rotr32 11 x ^^^ rotr32 25 x

/-- SHA-256 `σ0`. -/
def shaSmallSigma0 (x : Nat) : Nat := rotr32 7 x ^^^ rotr32 18 x ^^^ (x >>> 3)

/-- SHA-256 `σ1`. -/
def shaSmallSigma1 (x : Nat) : Nat := rotr32 17 x ^^^ rotr32 19 x ^^^ (x >>> 10)

/-- The sixty-four SHA-256 round constants `K`. -/
def shaK : List Nat :=
  [1116352408, 1899447441, 3049323471, 3921009573, 961987163,
   1508970993, 2453635748, 2870763221, 3624381080, 310598401,
   607225278, 1426881987, 1925078388, 2162078206, 2614888103,
   3248222580, 3835390401, 4022224774, 264347078, 604807628,
   770255983, 1249150122, 1555081692, 1996064986, 2554220882,
   2821834349, 2952996808, 3210313671, 3336571891, 3584528711,
   113926993, 338241895, 666307205, 773529912, 1294757372,
   1396182291, 1695183700, 1986661051, 2177026350, 2456956037,
   2730485921, 2820302411, 3259730800, 3345764771, 3516065817,
   3600352804, 4094571909, 275423344, 430227734, 506948616,
   659060556, 883997877, 958139571, 1322822218, 1537002063,
   1747873779, 1955562222, 2024104815, 2227730452, 2361852424,
   2428436474, 2756734187, 3204031479, 3329325298]

/-- The eight SHA-256 working registers `a..h`. -/
structure ShaRegs where
  a : Nat
  b : Nat
  c : Nat
  d : Nat
  e : Nat
  f : Nat
  g : Nat
  h : Nat
deriving Repr

/-- The SHA-256 initial hash value `H(0)`. -/
def shaH0 : ShaRegs :=
  { a := 1779033703
    b := 3144134277
    c := 1013904242
    d := 2773480762
    e := 1359893119
    f := 2600822924
    g := 528734635
    h := 1541459225 }

/-- One SHA-256 round with round constant `k` and schedule word `w`. -/
def shaRound (r : ShaRegs) (k w : Nat) : ShaRegs :=
  let t1 := add32 r.h (add32 (shaBigSigma1 r.e) (add32 (shaCh r.e r.f r.g) (add32 k w)))
  let t2 := add32 (shaBigSigma0 r.a) (shaMaj r.a r.b r.c)
  { a := add32 t1 t2, b := r.a, c := r.b, d := r.c,
    e := add32 r.d t1, f := r.e, g := r.f, h := r.g }

/-- Big-endian decoding of four bytes into a 32-bit word. -/
def word32OfBytes : List Nat → Nat
  | [b0, b1, b2, b3] => ((b0 % 256) <<< 24) ||| ((b1 % 256) <<< 16) ||| ((b2 % 256) <<< 8) ||| (b3 % 256)
  | _ => 0

/-- Big-endian serialisation of a 32-bit word into four bytes. -/
def bytesOfWord32 (w : Nat) : List Nat :=
  [(w >>> 24) % 256, (w >>> 16) % 256, (w >>> 8) % 256, w % 256]

/-- Splitting loop of `chunksOf`, structurally recursive on a fuel that
bounds the number of chunks. -/
def chunksOfAux (k : Nat) : Nat → List α → List (List α)
  | 0, _ => []
  | _, [] => []
  | fuel + 1, x :: xs => ((x :: xs).take k) :: chunksOfAux k fuel (xs.drop (k - 1))

/-- Split a list into consecutive chunks of `k` elements, for positive `k`
(only `k = 4` and `k = 64` are used below); each step consumes at least one
element, so the list's length bounds the number of chunks. -/
def chunksOf (k : Nat) (l : List α) : List (List α) :=
  chunksOfAux k l.length l

/-- Extend a (reversed) message schedule by one word: with the most recent
word at the head, the new word is `σ1(W[t-2]) + W[t-7] + σ0(W[t-15]) + W[t-16]`. -/
def shaExtendStep (ws : List Nat) : List Nat :=
  add32 (add32 (shaSmallSigma1 (ws.getD 1 0)) (ws.getD 6 0))
    (add32 (shaSmallSigma0 (ws.getD 14 0)) (ws.getD 15 0)) :: ws

/-- Iterate the schedule-extension step `n` times. -/
def shaExtendIter : Nat → List Nat → List Nat
  | 0, ws => ws
  | n + 1, ws => shaExtendIter n (shaExtendStep ws)

/-- The full 64-word message schedule of one 64-byte block (in order): the
sixteen decoded words extended by forty-eight computed ones. -/
def shaSchedule (block : List Nat) : List Nat :=
  let w16 := (chunksOf 4 block).map word32OfBytes
  (shaExtendIter 48 w16.reverse).reverse

/-- Compress one 64-byte block into the running hash value. -/
def shaCompress (h : ShaRegs) (block : List Nat) : ShaRegs :=
  let ws := shaSchedule block
  let r := (shaK.zip ws).foldl (fun r kw => shaRound r kw.1 kw.2) h
  { a := add32 h.a r.a, b := add32 h.b r.b, c := add32 h.c r.c, d := add32 h.d r.d,
    e := add32 h.e r.e, f := add32 h.f r.f, g := add32 h.g r.g, h := add32 h.h r.h }

/-- SHA-256 padding: append `0x80`, then zeros, then the 64-bit big-endian
bit length, reaching a multiple of 64 bytes.  The zero count is
`(55 - len) mod 64`, written as `(119 - (len % 64)) % 64` so that the
subtraction never truncates on naturals (for `len % 64` in `56..63` the
correct fill is `56..63` zero bytes, spilling into a second block). -/
def shaPad (msg : List Nat) : List Nat :=
  let len := msg.length
  let zeros := (119 - (len % 64)) % 64
  let bitLen := len * 8
  msg ++ [0x80] ++ List.replicate zeros 0 ++
    [(bitLen >>> 56) % 256, (bitLen >>> 48) % 256, (bitLen >>> 40) % 256, (bitLen >>> 32) % 256,
     (bitLen >>> 24) % 256, (bitLen >>> 16) % 256, (bitLen >>> 8) % 256, bitLen % 256]

/-- Embeds `hashlib.sha256(msg).digest()`: the 32-byte SHA-256 digest of a byte
list. -/
def sha256 (msg : List Nat) : List Nat :=
  let final := ((chunksOf 64 (shaPad msg)).foldl shaCompress shaH0)
  bytesOfWord32 final.a ++ bytesOfWord32 final.b ++ bytesOfWord32 final.c ++
    bytesOfWord32 final.d ++ bytesOfWord32 final.e ++ bytesOfWord32 final.f ++
    bytesOfWord32 final.g ++ bytesOfWord32 final.h

/-- The base64 alphabet of RFC 4648 §4 (as used by `base64.b64encode`). -/
def b64Alphabet : List Char :=
  "ABCDEFGHIJKLMNOPQRSTUVWXYZabcdefghijklmnopqrstuvwxyz0123456789+/".toList

/-- The base64 character of a sextet value. -/
def b64Char (n : Nat) : Char := b64Alphabet.getD n 'A'

/-- Embeds `base64.b64encode` over a byte list, producing characters: groups of
three bytes become four sextet characters; a trailing group of two or one
bytes is padded with `=`. -/
def b64encodeList : List Nat → List Char
  | [] => []
  | [b0] =>
    [b64Char ((b0 % 256) >>> 2), b64Char (((b0 % 256) &&& 3) <<< 4), '=', '=']
  | [b0, b1] =>
    [b64Char ((b0 % 256) >>> 2),
     b64Char ((((b0 % 256) &&& 3) <<< 4) ||| ((b1 % 256) >>> 4)),
     b64Char (((b1 % 256) &&& 15) <<< 2), '=']
  | b0 :: b1 :: b2 :: rest =>
    b64Char ((b0 % 256) >>> 2) ::
    b64Char ((((b0 % 256) &&& 3) <<< 4) ||| ((b1 % 256) >>> 4)) ::
    b64Char ((((b1 % 256) &&& 15) <<< 2) ||| ((b2 % 256) >>> 6)) ::
    b64Char ((b2 % 256) &&& 63) :: b64encodeList rest

/-- Python `str.lower()`: lowercase each character (the usernames at issue
are ASCII, where Python's Unicode lowercasing and ASCII lowercasing
agree). -/
def lowerStr (s : String) : String := String.mk (s.data.map Char.toLower)

/-- UTF-8 encoding of one Unicode code point (RFC 3629). -/
def utf8EncodeCodepoint (c : Nat) : List Nat :=
  if c < 0x80 then [c]
  else if c < 0x800 then
    [0xC0 ||| (c >>> 6), 0x80 ||| (c &&& 0x3F)]
  else if c < 0x10000 then
    [0xE0 ||| (c >>> 12), 0x80 ||| ((c >>> 6) &&& 0x3F), 0x80 ||| (c &&& 0x3F)]
  else
    [0xF0 ||| (c >>> 18), 0x80 ||| ((c >>> 12) &&& 0x3F),
     0x80 ||| ((c >>> 6) &&& 0x3F), 0x80 ||| (c &&& 0x3F)]

/-- Python `str.encode('utf-8')` as a byte list. -/
def utf8Bytes (s : String) : List Nat :=
  s.data.flatMap (fun ch => utf8EncodeCodepoint ch.toNat)

/-- Embeds `_encode_password(username, password)`:
`base64(sha256(utf8(password + username.lower())))` decoded back to text. -/
def encode_password (username password : String) : String :=
  String.mk (b64encodeList (sha256 (utf8Bytes (password ++ lowerStr username))))

/-!
## Concrete transports

Concrete network oracles used to evaluate the embedded operations at
specific inputs.
-/

/-- A transport in which every network call raises
`requests.exceptions.ConnectionError` (the connection-refused situation). -/
def trRequestsConnFail : Transport := fun _ => GetOutcome.raise PyExc.requestsConnectionError

/-- A transport in which every network call raises the Python builtin
`ConnectionError`. -/
def trBuiltinConnFail : Transport := fun _ => GetOutcome.raise PyExc.builtinConnectionError

/-- A transport whose auth endpoint answers 200 with a JSON body that has no
`authcode` key. -/
def trNoAuthcode : Transport := fun _ => GetOutcome.resp 200 (Json.obj [])

/-- A transport that accepts the login and then serves `[]` for every
resource fetch. -/
def trLoginThenEmpty : Transport := fun n =>
  if n = 0 then GetOutcome.resp 200 (Json.obj [("authcode", Json.str "ok")])
  else GetOutcome.resp 200 (Json.arr [])

/-- A transport that rejects every resource fetch with HTTP 401. -/
def trAlways401 : Transport := fun _ => GetOutcome.resp 401 (Json.obj [])

/-- A transport serving a link envelope and then the linked payload
`[1, 2, 3]`. -/
def trLinked : Transport := fun n =>
  if n = 0 then GetOutcome.resp 200 (Json.obj [("link", Json.str "https://dqfp1ltauszrc.cloudfront.net/x.json")])
  else GetOutcome.resp 200 (Json.arr [Json.num 1, Json.num 2, Json.num 3])

/-- A transport serving two chunk files: `[1, 2]` then `[3]`. -/
def trTwoChunks : Transport := fun n =>
  if n = 0 then GetOutcome.resp 200 (Json.arr [Json.num 1, Json.num 2])
  else GetOutcome.resp 200 (Json.arr [Json.num 3])

/-!
## Helper lemmas
-/

/-- Every outcome of the login POST leads either to a successful login that
sets `authenticated` (with return value `"Logged in"`), or to a raised
exception that leaves the state otherwise untouched. -/
theorem loginResponse_cases (st1 : St) (out : GetOutcome) :
    loginResponse st1 out =
      { result := Except.ok "Logged in", state := { st1 with authenticated := true },
        events := [Event.loginExchange] } ∨
    ∃ e, loginResponse st1 out =
      { result := Except.error e, state := st1, events := [Event.loginExchange] } := by
  cases out with
  | raise e =>
    unfold loginResponse
    repeat' split
    all_goals first
      | (left; rfl)
      | (right; exact ⟨_, rfl⟩)
  | resp status body =>
    unfold loginResponse
    repeat' split
    all_goals first
      | (left; rfl)
      | (right; exact ⟨_, rfl⟩)

/-- A `_login` call either succeeds — returning `"Logged in"` with `authenticated`
set and one consumed network call — or raises, leaving `authenticated`
unchanged; in both cases it emits exactly one login exchange. -/
theorem login_cases (tr : Transport) (st : St) :
    login tr st =
      { result := Except.ok "Logged in",
        state := { authenticated := true, netCalls := st.netCalls + 1 },
        events := [Event.loginExchange] } ∨
    ∃ e, login tr st =
      { result := Except.error e,
        state := { authenticated := st.authenticated, netCalls := st.netCalls + 1 },
        events := [Event.loginExchange] } := by
  have h := loginResponse_cases (bump st) (tr st.netCalls)
  unfold login
  unfold bump at h ⊢
  exact h

/-- A resource fetch never performs a login exchange. -/
theorem resourceResponse_no_login (st1 : St) (url : String) (p : Option Params)
    (out : GetOutcome) :
    loginCount (resourceResponse st1 url p out).events = 0 := by
  cases out with
  | raise e => rfl
  | resp status body =>
    unfold resourceResponse
    repeat' split
    all_goals rfl

/-- Unless the fetch outcome is an HTTP 401 response, handling it leaves the
`authenticated` flag unchanged. -/
theorem resourceResponse_auth_of_no401 (st1 : St) (url : String) (p : Option Params)
    (out : GetOutcome) (h : ∀ b, out ≠ GetOutcome.resp 401 b) :
    (resourceResponse st1 url p out).state.authenticated = st1.authenticated := by
  cases out with
  | raise e => rfl
  | resp status body =>
    have h401 : ¬ status = 401 := by
      intro hs
      exact h body (by rw [hs])
    unfold resourceResponse
    simp only [if_neg h401]
    repeat' split
    all_goals rfl

/-- A 401 response drops the `authenticated` flag and raises
`RuntimeError(r.json())`. -/
theorem resourceResponse_401 (st1 : St) (url : String) (p : Option Params) (b : Json) :
    resourceResponse st1 url p (GetOutcome.resp 401 b) =
      { result := Except.error (PyExc.runtimeError [b]),
        state := { st1 with authenticated := false },
        events := [Event.fetch url p] } := by
  rfl

/-- Starting authenticated, the flag is false after handling a fetch outcome
exactly when that outcome was an HTTP 401. -/
theorem resourceResponse_unauth_iff (st1 : St) (url : String) (p : Option Params)
    (out : GetOutcome) (h : st1.authenticated = true) :
    ((resourceResponse st1 url p out).state.authenticated = false ↔
      ∃ b, out = GetOutcome.resp 401 b) := by
  cases out with
  | raise e => simp [resourceResponse, h]
  | resp status body =>
    by_cases h401 : status = 401
    · subst h401
      rw [resourceResponse_401]
      simp
    · have hpres := resourceResponse_auth_of_no401 st1 url p (GetOutcome.resp status body)
        (by intro b hb; injection hb with h1 _; exact h401 h1)
      rw [hpres, h]
      simp [GetOutcome.resp.injEq, h401]

/-- With fuel left and an authenticated session, `_get_resource_or_link` is
its fetch body (no re-login). -/
theorem getROL_auth (tr : Transport) (fuel : Nat) (st : St) (url : String)
    (p : Option Params) (h : st.authenticated = true) (hf : 0 < fuel) :
    getResourceOrLink tr fuel st url p = getResourceOrLinkBody tr st url p := by
  cases fuel with
  | zero => omega
  | succ f =>
    unfold getResourceOrLink
    simp [h]

/-- An authenticated call of `_get_resource_or_link` performs no login
exchange (any fuel). -/
theorem getROL_auth_no_login (tr : Transport) (fuel : Nat) (st : St) (url : String)
    (p : Option Params) (h : st.authenticated = true) :
    loginCount (getResourceOrLink tr fuel st url p).events = 0 := by
  cases fuel with
  | zero => rfl
  | succ f =>
    rw [getROL_auth tr (f + 1) st url p h (by omega)]
    exact resourceResponse_no_login _ _ _ _

/-!
## Claim theorems
-/

/-- C4: every execution of `_get_resource_or_link` performs at most one login
exchange; when the session is not authenticated (and the recursion limit is
not already exhausted) exactly one login exchange happens, and after a
successful login the resolution is retried from the top exactly once (the
whole call is the login followed by one re-entry on the authenticated
state). -/
theorem c4_single_reauth_cycle (tr : Transport) (fuel : Nat) (st : St)
    (url : String) (payload : Option Params) :
    loginCount (getResourceOrLink tr fuel st url payload).events ≤ 1 ∧
    (0 < fuel → st.authenticated = false →
      loginCount (getResourceOrLink tr fuel st url payload).events = 1) ∧
    (0 < fuel → st.authenticated = false →
      (login tr st).result = Except.ok "Logged in" →
      getResourceOrLink tr fuel st url payload =
        { result := (getResourceOrLink tr (fuel - 1) (login tr st).state url payload).result,
          state := (getResourceOrLink tr (fuel - 1) (login tr st).state url payload).state,
          events := (login tr st).events ++
            (getResourceOrLink tr (fuel - 1) (login tr st).state url payload).events }) := by
  cases fuel with
  | zero =>
    refine ⟨?_, ?_, ?_⟩
    · show loginCount [] ≤ 1
      simp [loginCount]
    · intro hf
      omega
    · intro hf
      omega
  | succ f =>
    cases hauth : st.authenticated with
    | true =>
      refine ⟨?_, ?_, ?_⟩
      · rw [getROL_auth tr (f + 1) st url payload hauth (by omega)]
        rw [getResourceOrLinkBody, resourceResponse_no_login]
        omega
      · intro _ hfalse
        exact absurd hfalse (by simp)
      · intro _ hfalse
        exact absurd hfalse (by simp)
    | false =>
      rcases login_cases tr st with hok | ⟨e, herr⟩
      · have hred : getResourceOrLink tr (f + 1) st url payload =
            { result := (getResourceOrLink tr f
                { authenticated := true, netCalls := st.netCalls + 1 } url payload).result,
              state := (getResourceOrLink tr f
                { authenticated := true, netCalls := st.netCalls + 1 } url payload).state,
              events := [Event.loginExchange] ++
                (getResourceOrLink tr f
                  { authenticated := true, netCalls := st.netCalls + 1 } url payload).events } := by
          simp only [getResourceOrLink, hauth, Bool.false_eq_true, if_false, hok]
        have hinner : loginCount (getResourceOrLink tr f
            { authenticated := true, netCalls := st.netCalls + 1 } url payload).events = 0 :=
          getROL_auth_no_login tr f _ url payload rfl
        refine ⟨?_, ?_, ?_⟩
        · rw [hred]
          simp only [loginCount, List.countP_append] at hinner ⊢
          simp [hinner, isLoginEvent, List.countP_cons]
        · intro _ _
          rw [hred]
          simp only [loginCount, List.countP_append] at hinner ⊢
          simp [hinner, isLoginEvent, List.countP_cons]
        · intro _ _ _
          rw [hred, hok]
          simp
      · have hred : getResourceOrLink tr (f + 1) st url payload =
            { result := Except.error e,
              state := { authenticated := st.authenticated, netCalls := st.netCalls + 1 },
              events := [Event.loginExchange] } := by
          simp only [getResourceOrLink, hauth, Bool.false_eq_true, if_false, herr]
        refine ⟨?_, ?_, ?_⟩
        · rw [hred]
          simp [loginCount, List.countP_cons, isLoginEvent]
        · intro _ _
          rw [hred]
          simp [loginCount, List.countP_cons, isLoginEvent]
        · intro _ _ hcontra
          rw [herr] at hcontra
          simp at hcontra

/-- Witness for C4: a concrete unauthenticated call against a transport that
accepts the login performs exactly one login exchange. -/
theorem c4_single_reauth_cycle_witness :
    (0 : Nat) < 2 ∧ initialState.authenticated = false ∧
    loginCount (getResourceOrLink trLoginThenEmpty 2 initialState
      "/data/member/info" none).events = 1 :=
  ⟨by decide, rfl,
    (c4_single_reauth_cycle trLoginThenEmpty 2 initialState "/data/member/info" none).2.1
      (by decide) rfl⟩

/-- The chunk fetch loop never touches the `authenticated` flag. -/
theorem fetchChunkBodies_auth (tr : Transport) :
    ∀ (urls : List String) (st : St),
      (fetchChunkBodies tr st urls).state.authenticated = st.authenticated := by
  intro urls
  induction urls with
  | nil => intro st; rfl
  | cons u us ih =>
    intro st
    simp only [fetchChunkBodies]
    split
    · rfl
    · split
      · exact ih (bump st)
      · exact ih (bump st)

/-- The `_get_chunks` operation never touches the `authenticated` flag. -/
theorem getChunks_auth (tr : Transport) (st : St) (chunks : Json) :
    (getChunks tr st chunks).state.authenticated = st.authenticated := by
  simp only [getChunks]
  repeat' split
  all_goals first
    | rfl
    | exact fetchChunkBodies_auth tr _ st

/-- C5: the `authenticated` flag becomes true only through an explicit
successful `_login` exchange; starting authenticated it becomes false exactly
when the resource fetch observes an HTTP 401 — a 401 response both clears
the flag and raises, a side effect that happens whether or not the caller
retries; `_login` itself sets the flag exactly on success and never clears
it; and chunk assembly never touches the flag. -/
theorem c5_authenticated_flag_transitions (tr : Transport) (fuel : Nat) (st : St)
    (url : String) (payload : Option Params) :
    (st.authenticated = false →
      (getResourceOrLink tr fuel st url payload).state.authenticated = true →
      (login tr st).result = Except.ok "Logged in") ∧
    (0 < fuel → st.authenticated = true →
      ((getResourceOrLink tr fuel st url payload).state.authenticated = false ↔
        ∃ b, tr st.netCalls = GetOutcome.resp 401 b)) ∧
    (0 < fuel → st.authenticated = true →
      ∀ b, tr st.netCalls = GetOutcome.resp 401 b →
        (getResourceOrLink tr fuel st url payload).state.authenticated = false ∧
        (getResourceOrLink tr fuel st url payload).result =
          Except.error (PyExc.runtimeError [b])) ∧
    ((login tr st).state.authenticated = true ↔
      (st.authenticated = true ∨ (login tr st).result = Except.ok "Logged in")) ∧
    (∀ chunks, (getChunks tr st chunks).state.authenticated = st.authenticated) := by
  refine ⟨?_, ?_, ?_, ?_, ?_⟩
  · intro hfalse htrue
    cases fuel with
    | zero =>
      unfold getResourceOrLink at htrue
      rw [hfalse] at htrue
      exact absurd htrue (by simp)
    | succ f =>
      rcases login_cases tr st with hok | ⟨e, herr⟩
      · rw [hok]
      · have hred : getResourceOrLink tr (f + 1) st url payload =
            { result := Except.error e,
              state := { authenticated := st.authenticated, netCalls := st.netCalls + 1 },
              events := [Event.loginExchange] } := by
          simp only [getResourceOrLink, hfalse, Bool.false_eq_true, if_false, herr]
        rw [hred] at htrue
        rw [hfalse] at htrue
        exact absurd htrue (by simp)
  · intro hf htrue
    rw [getROL_auth tr fuel st url payload htrue hf, getResourceOrLinkBody]
    exact resourceResponse_unauth_iff (bump st) url payload (tr st.netCalls) htrue
  · intro hf htrue b hb
    rw [getROL_auth tr fuel st url payload htrue hf, getResourceOrLinkBody, hb,
      resourceResponse_401]
    exact ⟨rfl, rfl⟩
  · rcases login_cases tr st with hok | ⟨e, herr⟩
    · rw [hok]
      simp
    · rw [herr]
      simp
  · intro chunks
    exact getChunks_auth tr st chunks

/-- Witness for C5: a concrete authenticated call against a transport that
answers 401 leaves the session unauthenticated and raises. -/
theorem c5_authenticated_flag_transitions_witness :
    (0 : Nat) < 1 ∧ (St.mk true 0).authenticated = true ∧
    trAlways401 0 = GetOutcome.resp 401 (Json.obj []) ∧
    (getResourceOrLink trAlways401 1 (St.mk true 0)
      "/data/member/info" none).state.authenticated = false ∧
    (getResourceOrLink trAlways401 1 (St.mk true 0)
      "/data/member/info" none).result =
      Except.error (PyExc.runtimeError [Json.obj []]) := by
  refine ⟨by decide, rfl, rfl, ?_⟩
  exact (c5_authenticated_flag_transitions trAlways401 1 (St.mk true 0)
    "/data/member/info" none).2.2.1 (by decide) rfl (Json.obj []) rfl

/-- C3 (code bug): when the transport raises
`requests.exceptions.ConnectionError` during resolution, `_get_resource`
does NOT return `None` — the exception propagates, because the source's
`except ConnectionError` clause names the Python builtin, which the requests
exception does not subclass.  Had the transport raised the builtin
`ConnectionError` (which requests never does), the handler would fire and
return `None`. -/
theorem c3_connection_error_propagates :
    (getResource trRequestsConnFail 1 (St.mk true 0) "/data/member/info" none).result =
      Except.error PyExc.requestsConnectionError ∧
    ¬ (getResource trRequestsConnFail 1 (St.mk true 0) "/data/member/info" none).result =
        Except.ok none ∧
    (getResource trBuiltinConnFail 1 (St.mk true 0) "/data/member/info" none).result =
      Except.ok none := by
  refine ⟨rfl, ?_, rfl⟩
  intro h
  have hr : (getResource trRequestsConnFail 1 (St.mk true 0) "/data/member/info" none).result =
      Except.error PyExc.requestsConnectionError := rfl
  rw [hr] at h
  exact Except.noConfusion h

/-- C6 counterexample: a 200 login response whose JSON body lacks the
`authcode` key makes `_login` raise `KeyError('authcode')` — not the
`RuntimeError("Error from iRacing: ", serverMessage)` rejection the claim
predicts for a missing authentication marker — and the session is not marked
authenticated. -/
theorem c6_missing_authcode_counterexample :
    (login trNoAuthcode initialState).result = Except.error (PyExc.keyError "authcode") ∧
    ¬ (login trNoAuthcode initialState).result =
        Except.error (PyExc.runtimeError [Json.str "Error from iRacing: ", Json.obj []]) ∧
    (login trNoAuthcode initialState).state.authenticated = false := by
  refine ⟨rfl, ?_, rfl⟩
  intro h
  have hr : (login trNoAuthcode initialState).result =
      Except.error (PyExc.keyError "authcode") := rfl
  rw [hr] at h
  exact PyExc.noConfusion (Except.error.inj h)

/-- C6 (amended): a login timeout raises `RuntimeError("Login timed out")`; a
connection failure raises `RuntimeError("Connection error")`; a non-200
status, or a 200 response whose `authcode` value is present but falsy,
raises `RuntimeError("Error from iRacing: ", serverMessage)` carrying the
server's response; a 200 response *missing* the `authcode` key instead
raises `KeyError('authcode')`; and on success the session is marked
authenticated. -/
theorem c6_login_failure_semantics (tr : Transport) (st : St) :
    (tr st.netCalls = GetOutcome.raise PyExc.requestsTimeout →
      (login tr st).result =
        Except.error (PyExc.runtimeError [Json.str "Login timed out"])) ∧
    (tr st.netCalls = GetOutcome.raise PyExc.requestsConnectionError →
      (login tr st).result =
        Except.error (PyExc.runtimeError [Json.str "Connection error"])) ∧
    (∀ s b, tr st.netCalls = GetOutcome.resp s b → ¬ s = 200 →
      (login tr st).result =
        Except.error (PyExc.runtimeError [Json.str "Error from iRacing: ", b])) ∧
    (∀ b v, tr st.netCalls = GetOutcome.resp 200 b →
      pyGetItem b "authcode" = Except.ok v → pyTruthy v = false →
      (login tr st).result =
        Except.error (PyExc.runtimeError [Json.str "Error from iRacing: ", b])) ∧
    (∀ b v, tr st.netCalls = GetOutcome.resp 200 b →
      pyGetItem b "authcode" = Except.ok v → pyTruthy v = true →
      (login tr st).result = Except.ok "Logged in" ∧
      (login tr st).state.authenticated = true) ∧
    (∀ fields, tr st.netCalls = GetOutcome.resp 200 (Json.obj fields) →
      fields.lookup "authcode" = none →
      (login tr st).result = Except.error (PyExc.keyError "authcode")) := by
  refine ⟨?_, ?_, ?_, ?_, ?_, ?_⟩
  · intro ho
    simp only [login, ho]
    rfl
  · intro ho
    simp only [login, ho]
    rfl
  · intro s b ho hne
    simp only [login, ho, loginResponse, if_neg hne]
  · intro b v ho hget hfalse
    simp only [login, ho, loginResponse, hget, hfalse]
    simp
  · intro b v ho hget htrue
    simp only [login, ho, loginResponse, hget, htrue]
    simp
  · intro fields ho hnone
    simp only [login, ho, loginResponse, pyGetItem, hnone]
    simp

/-- Witness for C6 (amended): a concrete timed-out login raises the timeout
runtime error. -/
theorem c6_login_failure_semantics_witness :
    (fun _ => GetOutcome.raise PyExc.requestsTimeout : Transport) initialState.netCalls =
      GetOutcome.raise PyExc.requestsTimeout ∧
    (login (fun _ => GetOutcome.raise PyExc.requestsTimeout) initialState).result =
      Except.error (PyExc.runtimeError [Json.str "Login timed out"]) :=
  ⟨rfl, (c6_login_failure_semantics (fun _ => GetOutcome.raise PyExc.requestsTimeout)
    initialState).1 rfl⟩

/-- C9: `get_cust_id` returns a truthy `cust_id` unchanged, falls back to a
truthy `self.global_cust_id` when `cust_id` is falsy, and raises
`RuntimeError("Please supply a cust_id")` when both are falsy; the three
cases are exhaustive and mutually exclusive in the two truthiness bits. -/
theorem c9_get_cust_id_cases (g c : Json) :
    (pyTruthy c = true → get_cust_id g c = Except.ok c) ∧
    (pyTruthy c = false → pyTruthy g = true → get_cust_id g c = Except.ok g) ∧
    (pyTruthy c = false → pyTruthy g = false →
      get_cust_id g c =
        Except.error (PyExc.runtimeError [Json.str "Please supply a cust_id"])) := by
  refine ⟨?_, ?_, ?_⟩ <;> intros <;> simp [get_cust_id, *]

/-- Witness for C9: a concrete truthy `cust_id` is returned unchanged. -/
theorem c9_get_cust_id_cases_witness :
    pyTruthy (Json.num 7) = true ∧
    get_cust_id (Json.num 5) (Json.num 7) = Except.ok (Json.num 7) :=
  ⟨rfl, (c9_get_cust_id_cases (Json.num 5) (Json.num 7)).1 rfl⟩

/-- C1: for a resolution whose first (successful) response body is an object
with a `"link"` field, `_get_resource` issues a second GET to that link URL
and returns the second response's JSON body; for a first response body that
is an array, or an object without a `"link"` key, the originally parsed body
is returned verbatim with no second fetch — callers never receive the raw
link envelope. -/
theorem c1_resolution_fully_dereferences (tr : Transport) (fuel : Nat) (st : St)
    (endpoint : String) (payload : Option Params)
    (hauth : st.authenticated = true) (hfuel : 0 < fuel) :
    (∀ fields linkUrl b2,
      tr st.netCalls = GetOutcome.resp 200 (Json.obj fields) →
      fields.lookup "link" = some (Json.str linkUrl) →
      tr (st.netCalls + 1) = GetOutcome.resp 200 b2 →
      (getResource tr fuel st endpoint payload).result = Except.ok (some b2) ∧
      (getResource tr fuel st endpoint payload).events =
        [Event.fetch (build_url endpoint) payload, Event.fetch linkUrl none]) ∧
    (∀ elems,
      tr st.netCalls = GetOutcome.resp 200 (Json.arr elems) →
      (getResource tr fuel st endpoint payload).result =
        Except.ok (some (Json.arr elems)) ∧
      (getResource tr fuel st endpoint payload).events =
        [Event.fetch (build_url endpoint) payload]) ∧
    (∀ fields,
      tr st.netCalls = GetOutcome.resp 200 (Json.obj fields) →
      fields.lookup "link" = none →
      (getResource tr fuel st endpoint payload).result =
        Except.ok (some (Json.obj fields)) ∧
      (getResource tr fuel st endpoint payload).events =
        [Event.fetch (build_url endpoint) payload]) := by
  refine ⟨?_, ?_, ?_⟩
  · intro fields linkUrl b2 h1 hlink h2
    have hr1 : getResourceOrLink tr fuel st (build_url endpoint) payload =
        { result := Except.ok (Json.str linkUrl, true), state := bump st,
          events := [Event.fetch (build_url endpoint) payload] } := by
      rw [getROL_auth tr fuel st (build_url endpoint) payload hauth hfuel,
        getResourceOrLinkBody, h1]
      simp only [resourceResponse, hlink]
      simp
    have h2' : tr (bump st).netCalls = GetOutcome.resp 200 b2 := h2
    simp only [getResource, getResourceTryBody, hr1, linkFetchResult, h2']
    simp
  · intro elems h1
    have hr1 : getResourceOrLink tr fuel st (build_url endpoint) payload =
        { result := Except.ok (Json.arr elems, false), state := bump st,
          events := [Event.fetch (build_url endpoint) payload] } := by
      rw [getROL_auth tr fuel st (build_url endpoint) payload hauth hfuel,
        getResourceOrLinkBody, h1]
      simp [resourceResponse]
    simp only [getResource, getResourceTryBody, hr1]
    simp
  · intro fields h1 hlink
    have hr1 : getResourceOrLink tr fuel st (build_url endpoint) payload =
        { result := Except.ok (Json.obj fields, false), state := bump st,
          events := [Event.fetch (build_url endpoint) payload] } := by
      rw [getROL_auth tr fuel st (build_url endpoint) payload hauth hfuel,
        getResourceOrLinkBody, h1]
      simp only [resourceResponse, hlink]
      simp
    simp only [getResource, getResourceTryBody, hr1]
    simp

/-- Witness for C1: a concrete linked resolution returns the linked payload
`[1, 2, 3]`, not the envelope. -/
theorem c1_resolution_fully_dereferences_witness :
    (St.mk true 0).authenticated = true ∧ (0 : Nat) < 1 ∧
    trLinked 0 = GetOutcome.resp 200
      (Json.obj [("link", Json.str "https://dqfp1ltauszrc.cloudfront.net/x.json")]) ∧
    trLinked 1 = GetOutcome.resp 200 (Json.arr [Json.num 1, Json.num 2, Json.num 3]) ∧
    (getResource trLinked 1 (St.mk true 0) "/data/results/get" none).result =
      Except.ok (some (Json.arr [Json.num 1, Json.num 2, Json.num 3])) := by
  refine ⟨rfl, by decide, rfl, rfl, ?_⟩
  exact ((c1_resolution_fully_dereferences trLinked 1 (St.mk true 0)
    "/data/results/get" none rfl (by decide)).1
    [("link", Json.str "https://dqfp1ltauszrc.cloudfront.net/x.json")]
    "https://dqfp1ltauszrc.cloudfront.net/x.json"
    (Json.arr [Json.num 1, Json.num 2, Json.num 3]) rfl rfl rfl).1

/-- With a transport that never answers 401, an authenticated
`_get_resource_or_link` call keeps the session authenticated. -/
theorem getROL_no401_auth (tr : Transport)
    (h401 : ∀ i s b, tr i = GetOutcome.resp s b → ¬ s = 401)
    (fuel : Nat) (st : St) (url : String) (p : Option Params)
    (h : st.authenticated = true) :
    (getResourceOrLink tr fuel st url p).state.authenticated = true := by
  cases fuel with
  | zero => exact h
  | succ f =>
    rw [getROL_auth tr (f + 1) st url p h (by omega), getResourceOrLinkBody,
      resourceResponse_auth_of_no401]
    · exact h
    · intro b hb
      exact h401 st.netCalls 401 b hb rfl

/-- The try-body of `_get_resource` keeps the `authenticated` flag and the login count of its
`_get_resource_or_link` call: the link dereference neither logs in nor
touches the flag. -/
theorem getResourceTryBody_state_events (tr : Transport) (fuel : Nat) (st : St)
    (endpoint : String) (p : Option Params) :
    (getResourceTryBody tr fuel st endpoint p).state.authenticated =
      (getResourceOrLink tr fuel st (build_url endpoint) p).state.authenticated ∧
    loginCount (getResourceTryBody tr fuel st endpoint p).events =
      loginCount (getResourceOrLink tr fuel st (build_url endpoint) p).events := by
  simp only [getResourceTryBody]
  repeat' split
  all_goals refine ⟨rfl, ?_⟩
  all_goals simp [loginCount, List.countP_append, List.countP_cons, isLoginEvent]

/-- The `except ConnectionError` wrapper of `_get_resource` changes neither
the state nor the event trace of the try-body. -/
theorem getResource_state_events (tr : Transport) (fuel : Nat) (st : St)
    (endpoint : String) (p : Option Params) :
    (getResource tr fuel st endpoint p).state =
      (getResourceTryBody tr fuel st endpoint p).state ∧
    (getResource tr fuel st endpoint p).events =
      (getResourceTryBody tr fuel st endpoint p).events := by
  simp only [getResource]
  repeat' split
  all_goals exact ⟨rfl, rfl⟩

/-- An authenticated `_get_resource` call performs no login exchange. -/
theorem getResource_loginCount_auth (tr : Transport) (fuel : Nat) (st : St)
    (endpoint : String) (p : Option Params) (h : st.authenticated = true) :
    loginCount (getResource tr fuel st endpoint p).events = 0 := by
  rw [(getResource_state_events tr fuel st endpoint p).2,
    (getResourceTryBody_state_events tr fuel st endpoint p).2]
  exact getROL_auth_no_login tr fuel st (build_url endpoint) p h

/-- With a no-401 transport, an authenticated `_get_resource` call keeps the
session authenticated. -/
theorem getResource_auth_preserved (tr : Transport)
    (h401 : ∀ i s b, tr i = GetOutcome.resp s b → ¬ s = 401)
    (fuel : Nat) (st : St) (endpoint : String) (p : Option Params)
    (h : st.authenticated = true) :
    (getResource tr fuel st endpoint p).state.authenticated = true := by
  rw [(getResource_state_events tr fuel st endpoint p).1,
    (getResourceTryBody_state_events tr fuel st endpoint p).1]
  exact getROL_no401_auth tr h401 fuel st (build_url endpoint) p h

/-- A successful `_login` result determines the whole login record. -/
theorem login_ok_record (tr : Transport) (st : St) (r : String)
    (h : (login tr st).result = Except.ok r) :
    login tr st =
      { result := Except.ok "Logged in",
        state := { authenticated := true, netCalls := st.netCalls + 1 },
        events := [Event.loginExchange] } := by
  rcases login_cases tr st with hok | ⟨e, herr⟩
  · exact hok
  · rw [herr] at h
    exact absurd h (by simp)

/-- Unfolding of the unauthenticated `_get_resource_or_link` step after a
successful login: the call is the login followed by one authenticated
re-entry. -/
theorem getROL_unauth_step (tr : Transport) (f : Nat) (st : St) (url : String)
    (p : Option Params) (hauth : st.authenticated = false)
    (hok : login tr st =
      { result := Except.ok "Logged in",
        state := { authenticated := true, netCalls := st.netCalls + 1 },
        events := [Event.loginExchange] }) :
    getResourceOrLink tr (f + 1) st url p =
      { result := (getResourceOrLink tr f
          { authenticated := true, netCalls := st.netCalls + 1 } url p).result,
        state := (getResourceOrLink tr f
          { authenticated := true, netCalls := st.netCalls + 1 } url p).state,
        events := [Event.loginExchange] ++ (getResourceOrLink tr f
          { authenticated := true, netCalls := st.netCalls + 1 } url p).events } := by
  simp only [getResourceOrLink, hauth, Bool.false_eq_true, if_false, hok]

/-- An unauthenticated `_get_resource` call whose login succeeds performs
exactly one login exchange and (over a no-401 transport) ends
authenticated. -/
theorem getResource_unauth_success (tr : Transport)
    (h401 : ∀ i s b, tr i = GetOutcome.resp s b → ¬ s = 401)
    (f : Nat) (st : St) (endpoint : String) (p : Option Params)
    (hauth : st.authenticated = false)
    (hok : (login tr st).result = Except.ok "Logged in") :
    loginCount (getResource tr (f + 1) st endpoint p).events = 1 ∧
    (getResource tr (f + 1) st endpoint p).state.authenticated = true := by
  have hrec := login_ok_record tr st "Logged in" hok
  have hstep := getROL_unauth_step tr f st (build_url endpoint) p hauth hrec
  constructor
  · rw [(getResource_state_events tr (f + 1) st endpoint p).2,
      (getResourceTryBody_state_events tr (f + 1) st endpoint p).2, hstep]
    have hinner : loginCount (getResourceOrLink tr f
        { authenticated := true, netCalls := st.netCalls + 1 }
        (build_url endpoint) p).events = 0 :=
      getROL_auth_no_login tr f _ (build_url endpoint) p rfl
    simp only [loginCount, List.countP_append] at hinner ⊢
    simp [hinner, isLoginEvent, List.countP_cons]
  · rw [(getResource_state_events tr (f + 1) st endpoint p).1,
      (getResourceTryBody_state_events tr (f + 1) st endpoint p).1, hstep]
    exact getROL_no401_auth tr h401 f _ (build_url endpoint) p rfl

/-- C8: ensuring authentication is idempotent — an already-authenticated
resolution performs no login exchange, and two consecutive resolutions with
no intervening authorization failure (the transport never answers 401, and a
login attempted from the unauthenticated state is accepted) perform at most
one login exchange in total. -/
theorem c8_ensure_authenticated_idempotent (tr : Transport) (fuel1 fuel2 : Nat)
    (st : St) (e1 e2 : String) (p1 p2 : Option Params)
    (h401 : ∀ i s b, tr i = GetOutcome.resp s b → ¬ s = 401)
    (hlogin : st.authenticated = false → (login tr st).result = Except.ok "Logged in") :
    (st.authenticated = true →
      loginCount (getResource tr fuel1 st e1 p1).events = 0) ∧
    loginCount (getResource tr fuel1 st e1 p1).events +
      loginCount (getResource tr fuel2
        (getResource tr fuel1 st e1 p1).state e2 p2).events ≤ 1 := by
  constructor
  · intro h
    exact getResource_loginCount_auth tr fuel1 st e1 p1 h
  · cases hauth : st.authenticated with
    | true =>
      have h1 := getResource_loginCount_auth tr fuel1 st e1 p1 hauth
      have hst1 := getResource_auth_preserved tr h401 fuel1 st e1 p1 hauth
      have h2 := getResource_loginCount_auth tr fuel2 _ e2 p2 hst1
      omega
    | false =>
      cases fuel1 with
      | zero =>
        have hstate : (getResource tr 0 st e1 p1).state = st := rfl
        have h1 : loginCount (getResource tr 0 st e1 p1).events = 0 := rfl
        rw [hstate, h1]
        cases fuel2 with
        | zero =>
          have h2 : loginCount (getResource tr 0 st e2 p2).events = 0 := rfl
          omega
        | succ f2 =>
          have h2 := (getResource_unauth_success tr h401 f2 st e2 p2 hauth
            (hlogin hauth)).1
          omega
      | succ f1 =>
        have h1 := getResource_unauth_success tr h401 f1 st e1 p1 hauth (hlogin hauth)
        have h2 := getResource_loginCount_auth tr fuel2 _ e2 p2 h1.2
        omega

/-- Witness for C8: a concrete pair of back-to-back resolutions against a
transport that accepts the login and then always serves `[]` performs one
login exchange in total. -/
theorem c8_ensure_authenticated_idempotent_witness :
    (∀ i s b, trLoginThenEmpty i = GetOutcome.resp s b → ¬ s = 401) ∧
    (initialState.authenticated = false →
      (login trLoginThenEmpty initialState).result = Except.ok "Logged in") ∧
    loginCount (getResource trLoginThenEmpty 2 initialState "/data/lookup/get" none).events +
      loginCount (getResource trLoginThenEmpty 2
        (getResource trLoginThenEmpty 2 initialState "/data/lookup/get" none).state
        "/data/lookup/flairs" none).events ≤ 1 := by
  have h401 : ∀ i s b, trLoginThenEmpty i = GetOutcome.resp s b → ¬ s = 401 := by
    intro i s b hb
    unfold trLoginThenEmpty at hb
    split at hb <;> (injection hb with h1 _; omega)
  refine ⟨h401, fun _ => rfl, ?_⟩
  exact (c8_ensure_authenticated_idempotent trLoginThenEmpty 2 2 initialState
    "/data/lookup/get" "/data/lookup/flairs" none none h401 (fun _ => rfl)).2

theorem buildChunkUrls_strs (downloadBase : String) (names : List String) :
    buildChunkUrls downloadBase (names.map Json.str) =
      Except.ok (names.map (fun n => downloadBase ++ n)) := by
  induction names with
  | nil => rfl
  | cons n ns ih => simp [buildChunkUrls, ih]

theorem flattenChunks_map_arr (bodies : List (List Json)) :
    flattenChunks (bodies.map Json.arr) = Except.ok bodies.flatten := by
  induction bodies with
  | nil => rfl
  | cons b bs ih => simp [flattenChunks, pyIterate, ih, List.flatten]

theorem getD_map_arr (l : List (List Json)) (i : Nat) (h : i < l.length) :
    (l.map Json.arr).getD i Json.null = Json.arr (l.getD i []) := by
  induction l generalizing i with
  | nil => simp at h
  | cons x xs ih =>
    cases i with
    | zero => rfl
    | succ j => exact ih j (by simpa using h)

/-- The chunk fetch loop against a scripted transport: one GET per url,
strictly left to right, returning the scripted bodies in order. -/
theorem fetchChunkBodies_script (tr : Transport) :
    ∀ (urls : List String) (st : St) (bodies : List Json),
      bodies.length = urls.length →
      (∀ i, i < urls.length →
        ∃ s, tr (st.netCalls + i) = GetOutcome.resp s (bodies.getD i Json.null)) →
      fetchChunkBodies tr st urls =
        { result := Except.ok bodies,
          state := { authenticated := st.authenticated,
                     netCalls := st.netCalls + urls.length },
          events := urls.map (fun u => Event.fetch u none) } := by
  intro urls
  induction urls with
  | nil =>
    intro st bodies hlen hscript
    have hb : bodies = [] := List.eq_nil_of_length_eq_zero hlen
    subst hb
    simp [fetchChunkBodies]
  | cons u us ih =>
    intro st bodies hlen hscript
    cases bodies with
    | nil => simp at hlen
    | cons b bs =>
      obtain ⟨s0, h0⟩ := hscript 0 (by simp)
      rw [Nat.add_zero] at h0
      have hb0 : (b :: bs).getD 0 Json.null = b := rfl
      rw [hb0] at h0
      have hrec := ih (bump st) bs (by simpa using hlen) ?_
      · simp only [fetchChunkBodies, h0, hrec]
        have hn : (bump st).netCalls + us.length = st.netCalls + (us.length + 1) := by
          simp [bump]
          omega
        simp [bump] at hn ⊢
        omega
      · intro i hi
        obtain ⟨s, hs⟩ := hscript (i + 1) (by simpa using hi)
        refine ⟨s, ?_⟩
        have hgd : (b :: bs).getD (i + 1) Json.null = bs.getD i Json.null := rfl
        rw [hgd] at hs
        have hadd : st.netCalls + (i + 1) = (bump st).netCalls + i := by
          simp [bump]
          omega
        rwa [hadd] at hs

/-- C2: assembling a chunk manifest with N entries issues exactly N fetches,
one per file name in the exact left-to-right order of `chunk_file_names`
(each to `base_download_url ++ name`), and returns the one-level flattening
of the chunks' JSON arrays in that same order; with 0 entries the result is
empty and no fetch is issued (the N = 0 instance of the event-trace
equation). -/
theorem c2_chunk_assembly (tr : Transport) (st : St) (downloadBase : String)
    (names : List String) (bodies : List (List Json))
    (hlen : bodies.length = names.length)
    (hscript : ∀ i, i < names.length →
      ∃ s, tr (st.netCalls + i) = GetOutcome.resp s (Json.arr (bodies.getD i []))) :
    (getChunks tr st (Json.obj [("base_download_url", Json.str downloadBase),
        ("chunk_file_names", Json.arr (names.map Json.str))])).result =
      Except.ok bodies.flatten ∧
    (getChunks tr st (Json.obj [("base_download_url", Json.str downloadBase),
        ("chunk_file_names", Json.arr (names.map Json.str))])).events =
      names.map (fun n => Event.fetch (downloadBase ++ n) none) ∧
    getChunks tr st (Json.obj [("base_download_url", Json.str downloadBase),
        ("chunk_file_names", Json.arr [])]) =
      { result := Except.ok [], state := st, events := [] } := by
  have hbase : pyGetItem (Json.obj [("base_download_url", Json.str downloadBase),
      ("chunk_file_names", Json.arr (names.map Json.str))]) "base_download_url" =
      Except.ok (Json.str downloadBase) := rfl
  have hnames : pyGetItem (Json.obj [("base_download_url", Json.str downloadBase),
      ("chunk_file_names", Json.arr (names.map Json.str))]) "chunk_file_names" =
      Except.ok (Json.arr (names.map Json.str)) := rfl
  have hfetch := fetchChunkBodies_script tr (names.map (fun n => downloadBase ++ n)) st
    (bodies.map Json.arr)
    (by simp [hlen])
    (by
      intro i hi
      simp only [List.length_map] at hi
      obtain ⟨s, hs⟩ := hscript i hi
      refine ⟨s, ?_⟩
      rw [getD_map_arr bodies i (by omega)]
      exact hs)
  simp only [getChunks, hbase, hnames, pyIterate, buildChunkUrls_strs, hfetch,
    flattenChunks_map_arr]
  refine ⟨?_, ?_, ?_⟩
  · trivial
  · simp [List.map_map, Function.comp]
  · rfl

/-- Witness for C2: a two-chunk manifest served `[1,2]` and `[3]` assembles
to `[1,2,3]` with exactly the two fetches, in order. -/
theorem c2_chunk_assembly_witness :
    ([[Json.num 1, Json.num 2], [Json.num 3]] : List (List Json)).length =
      (["a.json", "b.json"] : List String).length ∧
    (getChunks trTwoChunks (St.mk true 0)
        (Json.obj [("base_download_url", Json.str "https://scorpio-assets.s3.amazonaws.com/"),
          ("chunk_file_names", Json.arr (["a.json", "b.json"].map Json.str))])).result =
      Except.ok ([[Json.num 1, Json.num 2], [Json.num 3]] : List (List Json)).flatten ∧
    (getChunks trTwoChunks (St.mk true 0)
        (Json.obj [("base_download_url", Json.str "https://scorpio-assets.s3.amazonaws.com/"),
          ("chunk_file_names", Json.arr (["a.json", "b.json"].map Json.str))])).events =
      ["a.json", "b.json"].map
        (fun n => Event.fetch ("https://scorpio-assets.s3.amazonaws.com/" ++ n) none) := by
  have hscript : ∀ i, i < (["a.json", "b.json"] : List String).length →
      ∃ s, trTwoChunks ((St.mk true 0).netCalls + i) = GetOutcome.resp s
        (Json.arr (([[Json.num 1, Json.num 2], [Json.num 3]] :
          List (List Json)).getD i [])) := by
    intro i hi
    simp only [List.length_cons, List.length_nil] at hi
    interval_cases i
    · exact ⟨200, rfl⟩
    · exact ⟨200, rfl⟩
  refine ⟨rfl, ?_, ?_⟩
  · exact (c2_chunk_assembly trTwoChunks (St.mk true 0)
      "https://scorpio-assets.s3.amazonaws.com/" ["a.json", "b.json"]
      [[Json.num 1, Json.num 2], [Json.num 3]] rfl hscript).1
  · exact (c2_chunk_assembly trTwoChunks (St.mk true 0)
      "https://scorpio-assets.s3.amazonaws.com/" ["a.json", "b.json"]
      [[Json.num 1, Json.num 2], [Json.num 3]] rfl hscript).2.1

/-- C10: when resolution inside `result_event_log` soft-fails to `None`, the
call does not return an absent result — `raw_data["chunk_info"]` is
evaluated outside the `except RuntimeError` handler, so subscripting `None`
raises an unhandled `TypeError`; conversely the absent-result (`None`)
return happens only when resolution raised an exception matched by the
handler's `except RuntimeError`. -/
theorem c10_soft_fail_raises (tr : Transport) (fuel : Nat) (st : St)
    (ssid ssn : Json) (hss : pyTruthy ssid = true) :
    ((getResource tr fuel st "/data/results/event_log"
        (some [("subsession_id", ssid), ("simsession_number", ssn)])).result =
          Except.ok none →
      (result_event_log tr fuel st ssid ssn).result =
        Except.error (PyExc.typeError "NoneType object is not subscriptable")) ∧
    ((result_event_log tr fuel st ssid ssn).result = Except.ok none →
      ∃ e, (getResource tr fuel st "/data/results/event_log"
        (some [("subsession_id", ssid), ("simsession_number", ssn)])).result =
          Except.error e ∧ caughtByRuntimeError e = true) := by
  constructor
  · intro hnone
    simp only [result_event_log, hss, Bool.not_true, Bool.false_eq_true, if_false, hnone]
    rfl
  · intro hok
    cases hr : (getResource tr fuel st "/data/results/event_log"
        (some [("subsession_id", ssid), ("simsession_number", ssn)])).result with
    | error e =>
      cases hc : caughtByRuntimeError e with
      | true => exact ⟨e, rfl, hc⟩
      | false =>
        have hne : (result_event_log tr fuel st ssid ssn).result ≠ Except.ok none := by
          simp only [result_event_log, hr]
          repeat' split
          all_goals simp_all
        exact absurd hok hne
    | ok v =>
      have hne : (result_event_log tr fuel st ssid ssn).result ≠ Except.ok none := by
        simp only [result_event_log, hr]
        repeat' split
        all_goals simp_all
      exact absurd hok hne

/-- Witness for C10: with a transport that raises the builtin
`ConnectionError` (the only exception the resolver's handler matches),
resolution returns `None` and `result_event_log` then raises the
`TypeError` instead of returning an absent result. -/
theorem c10_soft_fail_raises_witness :
    pyTruthy (Json.num 5) = true ∧
    (getResource trBuiltinConnFail 1 (St.mk true 0) "/data/results/event_log"
        (some [("subsession_id", Json.num 5), ("simsession_number", Json.num 0)])).result =
      Except.ok none ∧
    (result_event_log trBuiltinConnFail 1 (St.mk true 0) (Json.num 5) (Json.num 0)).result =
      Except.error (PyExc.typeError "NoneType object is not subscriptable") :=
  ⟨rfl, rfl,
    (c10_soft_fail_raises trBuiltinConnFail 1 (St.mk true 0) (Json.num 5) (Json.num 0)
      rfl).1 rfl⟩

/-- FIPS 180-4 test vector: the embedded SHA-256 hashes `"abc"` to the
standard digest. -/
theorem sha256_fips_vector :
    sha256 (utf8Bytes "abc") =
      [186, 120, 22, 191, 143, 1, 207, 234,
       65, 65, 64, 222, 93, 174, 34, 35,
       176, 3, 97, 163, 150, 23, 122, 156,
       180, 16, 255, 97, 242, 0, 21, 173] := by
  rfl

set_option maxRecDepth 65536 in
/-- FIPS 180-4 two-block test vector: the standard 56-byte message
exercises the padding boundary (`len % 64 = 56` needs 63 zero bytes,
spilling into a second block), where a truncating zero count would break. -/
theorem sha256_fips_two_block_vector :
    (shaPad (utf8Bytes
      "abcdbcdecdefdefgefghfghighijhijkijkljklmklmnlmnomnopnopq")).length = 128 ∧
    sha256 (utf8Bytes "abcdbcdecdefdefgefghfghighijhijkijkljklmklmnlmnomnopnopq") =
      [36, 141, 106, 97, 210, 6, 56, 184,
       229, 192, 38, 147, 12, 62, 96, 57,
       163, 60, 228, 89, 100, 255, 33, 103,
       246, 236, 237, 212, 25, 219, 6, 193] :=
  ⟨rfl, rfl⟩

set_option maxRecDepth 65536 in
/-- More padding-boundary vectors against CPython's hashlib: the empty
message, a 63-byte message (`len % 64 = 63`, needing 56 zero bytes) and a
64-byte message (a full first block). -/
theorem sha256_boundary_vectors :
    sha256 [] =
      [227, 176, 196, 66, 152, 252, 28, 20,
       154, 251, 244, 200, 153, 111, 185, 36,
       39, 174, 65, 228, 100, 155, 147, 76,
       164, 149, 153, 27, 120, 82, 184, 85] ∧
    sha256 (List.replicate 63 97) =
      [125, 62, 116, 160, 93, 125, 177, 91,
       206, 74, 217, 236, 6, 88, 234, 152,
       227, 240, 110, 238, 207, 22, 180, 198,
       255, 242, 218, 69, 125, 220, 47, 52] ∧
    sha256 (List.replicate 64 97) =
      [255, 224, 84, 254, 122, 224, 203, 109,
       198, 92, 58, 249, 182, 29, 82, 9,
       244, 57, 133, 29, 180, 61, 11, 165,
       153, 115, 55, 223, 21, 70, 104, 235] :=
  ⟨rfl, rfl, rfl⟩

/-- RFC 4648 §10 test vectors for the embedded base64 encoder. -/
theorem b64_rfc_vectors :
    String.mk (b64encodeList (utf8Bytes "foob")) = "Zm9vYg==" ∧
    String.mk (b64encodeList (utf8Bytes "fooba")) = "Zm9vYmE=" ∧
    String.mk (b64encodeList (utf8Bytes "foobar")) = "Zm9vYmFy" := by
  exact ⟨rfl, rfl, rfl⟩

/-- The embedded `_encode_password` agrees with CPython's
`base64.b64encode(hashlib.sha256((password + username.lower()).encode('utf-8')).digest())`
on a concrete credential pair. -/
theorem encode_password_vector :
    encode_password "TestUser" "MyPassword" =
      "6J+iUVFMDl+J8iz3lEW0LRLijP6J+F0KZ7VAgAEiwlE=" := by
  rfl

set_option maxRecDepth 65536 in
/-- A padding-boundary credential: `password ++ lower(username)` is 57 bytes
here (`mod 64` inside `56..63`), and the embedded `_encode_password` agrees
with CPython's
`base64.b64encode(hashlib.sha256((password + username.lower()).encode('utf-8')).digest())`
on it. -/
theorem encode_password_boundary_vector :
    (utf8Bytes ("SuperSecretPassword1234567890123456" ++
      lowerStr "BoundaryLengthUserName")).length = 57 ∧
    encode_password "BoundaryLengthUserName" "SuperSecretPassword1234567890123456" =
      "xdYbdZYTJEy4j7InV4po4uJHfVmtrJ29rTaEyyz7sjg=" :=
  ⟨rfl, rfl⟩

/-- A SHA-256 digest is always exactly 32 bytes. -/
theorem sha256_length (msg : List Nat) : (sha256 msg).length = 32 := by
  simp [sha256, bytesOfWord32]

/-- Base64 output length: four characters per started group of three
bytes. -/
theorem b64encodeList_length :
    ∀ bs : List Nat, (b64encodeList bs).length = 4 * ((bs.length + 2) / 3)
  | [] => rfl
  | [b0] => by simp [b64encodeList]
  | [b0, b1] => by simp [b64encodeList]
  | b0 :: b1 :: b2 :: rest => by
    simp only [b64encodeList, List.length_cons]
    rw [b64encodeList_length rest]
    omega

/-- C7: `_encode_password` is exactly the text-safe base64 encoding of the
SHA-256 digest of the password concatenated with the lower-cased username;
being a pure function of its two arguments it is deterministic across calls
and processes, and its output always has the fixed length 44. -/
theorem c7_encode_password_shape (username password : String) :
    encode_password username password =
      String.mk (b64encodeList (sha256 (utf8Bytes (password ++ lowerStr username)))) ∧
    (encode_password username password).length = 44 := by
  refine ⟨rfl, ?_⟩
  have h1 : (encode_password username password).length =
      (b64encodeList (sha256 (utf8Bytes (password ++ lowerStr username)))).length := rfl
  rw [h1, b64encodeList_length, sha256_length]
